import Mathlib

/-!
Verification development for the WatchHer surveillance pipeline
(detection fusion, risk scoring, women-safety scenario classification,
cooldown-gated alerting).

The definitions below are a shallow embedding of the Python source:

* `src/src/core/ai_analyzer.py` — spatial association of harmful objects
  (`_associate_harmful_objects`), per-woman safety analysis
  (`_analyze_individual_woman_safety`), distress detection
  (`_detect_distress_signals`), the scenario classifier
  (`analyze_women_safety_scenarios`) and the overall threat level
  (`_calculate_overall_threat_level`);
* `src/src/core/camera_processor.py` — the frame risk scorer
  (`_calculate_risk_score`);
* `src/src/utils/alert_system.py` — the cooldown-gated `trigger_alert`;
* `src/surveillance_system/camera_processor.py` — the variant
  `_count_surrounding_males` / per-female `surrounded` flag.

Modelling conventions: Python ints are `ℤ`, Python floats are `ℚ`
(all constants in the scoring paths are decimal literals, represented
exactly), Python `//` is `Int.fdiv`.  The source compares Euclidean
distances `np.sqrt(dx**2+dy**2)` against nonnegative thresholds `t`;
we carry the squared distance and compare against `t^2`, an equivalent
encoding (`Real.sqrt d ≤ t ↔ d ≤ t^2` for `0 ≤ d`, `0 ≤ t`), which keeps
every definition executable.  Stored `distance` fields likewise hold the
squared distance.  The current wall-clock hour consulted by the scorer
is passed as an explicit argument.
-/

namespace WatchHer

/-- Gender attribute of a person detection (`detection['gender']`);
the source uses the strings `'man'`, `'woman'`, `'unknown'`. -/
inductive Gender where
  | man
  | woman
  | unknown
deriving DecidableEq, Repr

/-- One entry of `detection['harmful_objects_nearby']`: the dict
`{'type': obj['class'], 'confidence': obj['confidence'], 'distance': distance}`
appended by `_associate_harmful_objects`.  `distSq` holds the squared
Euclidean distance (the source stores its square root). -/
structure HazardRecord where
  type : String
  confidence : ℚ
  distSq : ℤ
deriving DecidableEq, Repr

/-- A person detection dict as built by `AIAnalyzer.analyze_frame`:
`bbox = [x1, y1, x2, y2]`, detection confidence, gender and age filled in
by the face-attribute step, optional 17-entry pose keypoints
(each `(x, y, confidence)`), and the hazard-association fields. -/
structure Detection where
  x1 : ℤ
  y1 : ℤ
  x2 : ℤ
  y2 : ℤ
  confidence : ℚ
  gender : Gender
  age : ℤ
  keypoints : Option (List (ℤ × ℤ × ℚ))
  hasHarmfulObject : Bool
  harmfulObjectsNearby : List HazardRecord
deriving DecidableEq, Repr

/-- A harmful-object dict from `analyze_frame`:
`{'bbox': ..., 'confidence': ..., 'class': ..., 'center': [(x1+x2)//2, (y1+y2)//2]}`. -/
structure HarmfulObject where
  x1 : ℤ
  y1 : ℤ
  x2 : ℤ
  y2 : ℤ
  confidence : ℚ
  className : String
  centerX : ℤ
  centerY : ℤ
deriving DecidableEq, Repr

/-- Center of a detection's bounding box:
`[(px1 + px2) // 2, (py1 + py2) // 2]` (Python floor division). -/
def Detection.center (d : Detection) : ℤ × ℤ :=
  ((d.x1 + d.x2).fdiv 2, (d.y1 + d.y2).fdiv 2)

/-- Squared Euclidean distance between two integer points. -/
def distSq (a b : ℤ × ℤ) : ℤ :=
  (a.1 - b.1) ^ 2 + (a.2 - b.2) ^ 2

/-- Test `px1 <= obj_center[0] <= px2 and py1 <= obj_center[1] <= py2`
from `_associate_harmful_objects`. -/
def withinBbox (p : Detection) (o : HarmfulObject) : Bool :=
  decide (p.x1 ≤ o.centerX ∧ o.centerX ≤ p.x2 ∧ p.y1 ≤ o.centerY ∧ o.centerY ≤ p.y2)

/-- Association test of `_associate_harmful_objects`: the object's center
lies inside the person's box, or the center-to-center distance is at most
100 pixels (`distance <= 100`, encoded as `distSq ≤ 100^2`). -/
def assocCond (p : Detection) (o : HarmfulObject) : Bool :=
  withinBbox p o || decide (distSq p.center (o.centerX, o.centerY) ≤ 100 ^ 2)

/-- Effect of one inner-loop iteration of `_associate_harmful_objects` on
one person: on association, set `has_harmful_object = True` and append the
`{type, confidence, distance}` record; otherwise leave the person unchanged. -/
def associateOne (p : Detection) (o : HarmfulObject) : Detection :=
  if assocCond p o then
    { p with
      hasHarmfulObject := true
      harmfulObjectsNearby := p.harmfulObjectsNearby ++
        [⟨o.className, o.confidence, distSq p.center (o.centerX, o.centerY)⟩] }
  else p

/-- Embedding of `_associate_harmful_objects`: for every person, fold over the harmful
objects in order (outer loop over persons, inner loop over objects). -/
def associateHarmfulObjects (persons : List Detection) (objs : List HarmfulObject) :
    List Detection :=
  persons.map (fun p => objs.foldl associateOne p)

/-! ## Risk scoring (`CameraProcessor._calculate_risk_score`) -/

/-- Per-weapon increment of `_calculate_risk_score`: type-specific
multiplier times the object's confidence. -/
def weaponRisk (w : HazardRecord) : ℚ :=
  if w.type = "knife" then 40 * w.confidence
  else if w.type = "baseball bat" then 30 * w.confidence
  else if w.type = "scissors" then 20 * w.confidence
  else if w.type = "fork" then 15 * w.confidence
  else 25 * w.confidence

/-- Per-person additive contribution of the individual-assessment loop of
`_calculate_risk_score`: weapon risk (only when the `has_harmful_object`
flag is set) plus the gender/age vulnerability increments. -/
def personRisk (d : Detection) : ℚ :=
  (if d.hasHarmfulObject then (d.harmfulObjectsNearby.map weaponRisk).sum else 0)
  + (if d.gender = .woman then
      5 + (if 16 ≤ d.age ∧ d.age ≤ 30 then 5 else 0)
    else 0)

/-- Group-dynamics bonus of `_calculate_risk_score` (`total_people > 1`
block): +15 for one woman with ≥ 2 men, else +10 when both genders are
present and `men / women >= 3` (float division in the source, exact in ℚ). -/
def groupBonus (totalPeople womenCount menCount : ℕ) : ℚ :=
  if totalPeople > 1 then
    if womenCount = 1 ∧ menCount ≥ 2 then 15
    else if womenCount > 0 ∧ menCount > 0 ∧ (menCount : ℚ) / (womenCount : ℚ) ≥ 3 then 10
    else 0
  else 0

/-- Night test of `_calculate_risk_score`:
`current_hour >= 22 or current_hour <= 6`. -/
def isNightHour (hour : ℕ) : Bool :=
  decide (hour ≥ 22 ∨ hour ≤ 6)

/-- Embedding of `CameraProcessor._calculate_risk_score`.  Empty detection list returns
0.0 immediately; otherwise base 10, per-person contributions, group
dynamics, the ×1.2 night multiplier, the +2-per-extra-person crowding
bonus, then the final clamp `max(0.0, min(100.0, risk_score))`.  The
current hour (`datetime.now().hour`) is passed explicitly. -/
def calculateRiskScore (detections : List Detection) (hour : ℕ) : ℚ :=
  if detections = [] then 0
  else
    let totalPeople := detections.length
    let womenCount := (detections.filter (fun d => d.gender = .woman)).length
    let menCount := (detections.filter (fun d => d.gender = .man)).length
    let s1 : ℚ := 10 + (detections.map personRisk).sum
    let s2 : ℚ := s1 + groupBonus totalPeople womenCount menCount
    let s3 : ℚ := if isNightHour hour then s2 * (12 / 10) else s2
    let s4 : ℚ := if totalPeople > 5 then s3 + ((totalPeople : ℚ) - 5) * 2 else s3
    max 0 (min 100 s4)

/-! ## Per-woman safety analysis (`AIAnalyzer._analyze_individual_woman_safety`) -/

/-- A `nearby_people` entry: `{'person': ..., 'distance': ..., 'is_male': ...}`;
`distSq` again holds the squared center distance. -/
structure NearbyPerson where
  person : Detection
  distSq : ℤ
  isMale : Bool
deriving DecidableEq, Repr

/-- Result dict of `_analyze_individual_woman_safety`. -/
structure WomanAnalysis where
  position : ℤ × ℤ
  isAlone : Bool
  isSurrounded : Bool
  nearbyMen : List NearbyPerson
  isolationRisk : ℚ
  threatLevel : ℚ
  immediateDanger : Bool
  escapeRoutes : ℕ
deriving DecidableEq, Repr

/-- The `nearby_people` computation: every person of `allPeople` other than
the woman herself (Python `person == woman` value equality) whose center is
strictly within 200 pixels of her center (`distance < 200`, encoded as
`distSq < 200^2`). -/
def nearbyPeople (woman : Detection) (allPeople : List Detection) : List NearbyPerson :=
  (allPeople.filter (fun p =>
      p ≠ woman ∧ distSq woman.center p.center < 200 ^ 2)).map
    (fun p => ⟨p, distSq woman.center p.center, p.gender = .man⟩)

/-- One direction of the escape-route scan: sample 9 points
(`for step in range(1, 10)`) along `(dx, dy)` spaced by `w // 10` / `h // 10`
and require that no other person's bounding box contains any sampled point. -/
def pathClear (woman : Detection) (allPeople : List Detection) (w h : ℤ)
    (dx dy : ℤ) : Bool :=
  let c := woman.center
  (List.range' 1 9).all fun step =>
    allPeople.all fun p =>
      p = woman ||
      !(decide (p.x1 ≤ c.1 + dx * w.fdiv 10 * (step : ℤ) ∧
                c.1 + dx * w.fdiv 10 * (step : ℤ) ≤ p.x2 ∧
                p.y1 ≤ c.2 + dy * h.fdiv 10 * (step : ℤ) ∧
                c.2 + dy * h.fdiv 10 * (step : ℤ) ≤ p.y2))

/-- Escape-route count: the four directions up/right/down/left, each worth
one route when its sampled path is clear. -/
def escapeRouteCount (woman : Detection) (allPeople : List Detection) (w h : ℤ) : ℕ :=
  ([((0 : ℤ), (-1 : ℤ)), (1, 0), (0, 1), (-1, 0)].filter
    (fun d => pathClear woman allPeople w h d.1 d.2)).length

/-- Embedding of `_analyze_individual_woman_safety`: proximity scan (200 px), alone /
surrounded flags, isolation risk from edge proximity, threat level
(`min(1, nearby_men/5)` once ≥ 3 men are near, overridden to 1.0 by any
armed nearby man), immediate danger from the woman's own hazard or an armed
nearby man, and the escape-route count.  `w`, `h` are the frame
dimensions (`frame_shape[:2]` reversed). -/
def analyzeIndividualWomanSafety (woman : Detection) (allPeople : List Detection)
    (w h : ℤ) : WomanAnalysis :=
  let c := woman.center
  let nearby := nearbyPeople woman allPeople
  let isAlone := nearby.length = 0
  let nearbyMen := nearby.filter (·.isMale)
  let isSurrounded := nearbyMen.length ≥ 3
  let baseThreat : ℚ := if isSurrounded then min 1 ((nearbyMen.length : ℚ) / 5) else 0
  let anyArmedMan := nearbyMen.any (·.person.hasHarmfulObject)
  let threatLevel := if anyArmedMan then 1 else baseThreat
  let isolationRisk : ℚ :=
    if isAlone then
      let edgeProximity := min (min c.1 c.2) (min (w - c.1) (h - c.2))
      max (1 / 2) (1 - (edgeProximity : ℚ) / ((min w h : ℤ) : ℚ) * 2)
    else 0
  let immediateDanger := woman.hasHarmfulObject || anyArmedMan
  { position := c
    isAlone := isAlone
    isSurrounded := isSurrounded
    nearbyMen := nearbyMen
    isolationRisk := isolationRisk
    threatLevel := threatLevel
    immediateDanger := immediateDanger
    escapeRoutes := escapeRouteCount woman allPeople w h }

/-! ## Distress detection (`AIAnalyzer._detect_distress_signals`) -/

/-- Result dict of `_detect_distress_signals`. -/
structure Distress where
  hasDistress : Bool
  confidence : ℚ
  indicators : List String
deriving DecidableEq, Repr

/-- Embedding of `_detect_distress_signals`: with keypoints present, the arms-raised
indicator (+0.4) fires when both wrists (indices 9, 10) sit more than 50 px
above the nose (index 0) with joint confidence > 0.5 each (requires ≥ 11
entries so that index 10 exists); the defensive-posture indicator (+0.3)
fires when the left wrist is within 100 px of the nose (squared-distance
encoding) with confidence > 0.5.  Final `has_distress` is
`confidence > 0.4` (strict). -/
def detectDistressSignals (woman : Detection) : Distress :=
  let step : ℚ × List String :=
    match woman.keypoints with
    | none => (0, [])
    | some kps =>
      let armsRaised : Bool :=
        decide (kps.length ≥ 10) &&
        match kps.get? 9, kps.get? 10, kps.get? 0 with
        | some lw, some rw, some head =>
            decide (lw.2.1 < head.2.1 - 50 ∧ lw.2.2 > 1 / 2 ∧
              rw.2.1 < head.2.1 - 50 ∧ rw.2.2 > 1 / 2)
        | _, _, _ => false
      let s1 : ℚ × List String :=
        if armsRaised then (4 / 10, ["arms_raised"]) else (0, [])
      let defensive : Bool :=
        decide (kps.length ≥ 5) &&
        match kps.get? 0, kps.get? 9 with
        | some nose, some lw =>
            decide ((nose.1 - lw.1) ^ 2 + (nose.2.1 - lw.2.1) ^ 2 < 100 ^ 2 ∧
              lw.2.2 > 1 / 2)
        | _, _ => false
      if defensive then (s1.1 + 3 / 10, s1.2 ++ ["defensive_posture"]) else s1
  { hasDistress := step.1 > 4 / 10
    confidence := step.1
    indicators := step.2 }

/-! ## Scenario classifier (`AIAnalyzer.analyze_women_safety_scenarios`) -/

/-- Overall threat level of a frame. -/
inductive ThreatLevel where
  | SAFE
  | LOW
  | MODERATE
  | HIGH
  | CRITICAL
deriving DecidableEq, Repr

/-- The `safety_alerts` dict (the always-empty `risk_zones` list is omitted). -/
structure SafetyAnalysis where
  loneWomen : List WomanAnalysis
  surroundedWomen : List WomanAnalysis
  womenInDanger : List WomanAnalysis
  distressSignals : List Distress
  overallThreatLevel : ThreatLevel
deriving DecidableEq, Repr

/-- Embedding of `_calculate_overall_threat_level`: strict priority
CRITICAL > HIGH > MODERATE > LOW > SAFE. -/
def calculateOverallThreatLevel (lone surrounded danger : List WomanAnalysis)
    (distress : List Distress) : ThreatLevel :=
  if danger ≠ [] then .CRITICAL
  else if surrounded ≠ [] then .HIGH
  else if distress ≠ [] then .MODERATE
  else if lone ≠ [] then .LOW
  else .SAFE

/-- Embedding of `analyze_women_safety_scenarios`: analyze each woman, bucket her into
`lone_women` (alone with isolation risk > 0.7), `surrounded_women`
(surrounded with threat level > 0.6), `women_in_danger` (immediate danger
or own hazard), collect positive distress results, then rank the overall
threat level. -/
def analyzeWomenSafetyScenarios (detections : List Detection) (w h : ℤ) :
    SafetyAnalysis :=
  let women := detections.filter (fun d => d.gender = .woman)
  let pairs := women.map (fun wm => (wm, analyzeIndividualWomanSafety wm detections w h))
  let lone := (pairs.filter (fun pr => pr.2.isAlone ∧ pr.2.isolationRisk > 7 / 10)).map (·.2)
  let surrounded :=
    (pairs.filter (fun pr => pr.2.isSurrounded ∧ pr.2.threatLevel > 6 / 10)).map (·.2)
  let danger :=
    (pairs.filter (fun pr => pr.2.immediateDanger ∨ pr.1.hasHarmfulObject)).map (·.2)
  let distress := (women.map detectDistressSignals).filter (·.hasDistress)
  { loneWomen := lone
    surroundedWomen := surrounded
    womenInDanger := danger
    distressSignals := distress
    overallThreatLevel := calculateOverallThreatLevel lone surrounded danger distress }

/-! ## Alert dispatcher (`src/src/utils/alert_system.py`) -/

/-- Cooldown key: `(camera_id, alert_type)`. -/
abbrev AlertKey := String × String

/-- A persisted alert row (`insert_alert(camera_id, alert_type, threat_score,
details)` stamped with the trigger time). -/
structure AlertRecord where
  cameraId : String
  alertType : String
  timestamp : ℤ
  threatScore : ℚ
  details : String
deriving DecidableEq, Repr

/-- Dispatcher state: the global `last_alert_times` dictionary
(`(camera_id, alert_type) → datetime`) plus the external store of persisted
alert rows, modelled as the list of rows written so far.  Timestamps are in
seconds. -/
structure AlertState where
  lastAlertTimes : AlertKey → Option ℤ
  alerts : List AlertRecord

/-- Default cooldown `config.ALERT_SETTINGS['alert_cooldown']` (seconds). -/
def alertCooldownDefault : ℤ := 300

/-- Embedding of `trigger_alert`: if the key has a recorded last trigger and the elapsed
time is strictly below the cooldown, return `False` and change nothing;
otherwise log/snapshot (delegated I/O, not modelled), persist one alert row,
record the trigger time for the key, and return `True`.  The wall-clock
`now` and the configured cooldown are explicit arguments. -/
def trigger_alert (st : AlertState) (now : ℤ) (cameraId alertType : String)
    (details : String) (threatScore : ℚ) (cooldownSeconds : ℤ) :
    Bool × AlertState :=
  let key : AlertKey := (cameraId, alertType)
  let blocked : Bool :=
    match st.lastAlertTimes key with
    | some t => decide (now - t < cooldownSeconds)
    | none => false
  if blocked then (false, st)
  else
    (true,
      { lastAlertTimes := fun k => if k = key then some now else st.lastAlertTimes k
        alerts := st.alerts ++ [⟨cameraId, alertType, now, threatScore, details⟩] })

/-! ## Surveillance-system variant
(`src/surveillance_system/camera_processor.py`): boxes are `(x, y, w, h)`,
and the per-female `surrounded` flag of `_analyze_threat_level` uses
`_count_surrounding_males` with a 150 px threshold and a count of ≥ 2. -/

namespace Surveillance

/-- A person detection of the surveillance-system variant; only the
`box = (x, y, w, h)` field matters for the surrounding count. -/
structure SPerson where
  x : ℤ
  y : ℤ
  w : ℤ
  h : ℤ
deriving DecidableEq, Repr

/-- Box center `(x + w // 2, y + h // 2)`. -/
def SPerson.center (p : SPerson) : ℤ × ℤ := (p.x + p.w.fdiv 2, p.y + p.h.fdiv 2)

/-- Embedding of `_count_surrounding_males`: males whose center is within 150 px
(`distance <= 150`, squared encoding) of the female's center. -/
def countSurroundingMales (female : SPerson) (males : List SPerson) : ℕ :=
  (males.filter (fun m =>
    distSq female.center m.center ≤ 150 ^ 2)).length

/-- The `female['surrounded']` flag set by `_analyze_threat_level`:
true exactly when `_count_surrounding_males >= 2`. -/
def surroundedFlag (female : SPerson) (males : List SPerson) : Bool :=
  countSurroundingMales female males ≥ 2

end Surveillance

/-! ## Spec-side definition for the normalization refinement -/

/-- Modelled from the spec: the logistic normalization
`score = 100 / (1 + e^(−0.1×(total−10)))` with midpoint 10 and slope 0.1.
This formula appears only in the specification; no scoring path of the
source applies it (comparison definition for the refinement question). -/
noncomputable def logisticSpec (total : ℝ) : ℝ :=
  100 / (1 + Real.exp (-(1 / 10) * (total - 10)))

/-- The combined weighted total of `_calculate_risk_score` after the
night-time multiplier and the crowding bonus, before the final clamp:
the value held by `risk_score` on the line `return max(0.0, min(100.0, risk_score))`. -/
def combinedTotal (detections : List Detection) (hour : ℕ) : ℚ :=
  let totalPeople := detections.length
  let womenCount := (detections.filter (fun d => d.gender = .woman)).length
  let menCount := (detections.filter (fun d => d.gender = .man)).length
  let s1 : ℚ := 10 + (detections.map personRisk).sum
  let s2 : ℚ := s1 + groupBonus totalPeople womenCount menCount
  let s3 : ℚ := if isNightHour hour then s2 * (12 / 10) else s2
  if totalPeople > 5 then s3 + ((totalPeople : ℚ) - 5) * 2 else s3

/-! ## Concrete frames used as test inputs, boundary cases and
counterexamples -/

/-- One woman, age 25, no weapons, box `[100,100,200,300]`. -/
def soloWoman : Detection := ⟨100, 100, 200, 300, 9 / 10, .woman, 25, none, false, []⟩

/-- Boundary person for the association test: box `[0,0,10,10]`,
center `(5,5)`. -/
def boundaryPerson : Detection := ⟨0, 0, 10, 10, 9 / 10, .man, 25, none, false, []⟩

/-- Knife whose center `(105,5)` is exactly 100 px from `boundaryPerson`'s
box center. -/
def boundaryObj100 : HarmfulObject := ⟨100, 0, 110, 10, 8 / 10, "knife", 105, 5⟩

/-- Knife whose center `(106,5)` is exactly 101 px from `boundaryPerson`'s
box center and outside its box. -/
def boundaryObj101 : HarmfulObject := ⟨101, 0, 111, 10, 8 / 10, "knife", 106, 5⟩

/-- Woman at box `[310,230,330,250]` (center `(320,240)`) in a 640×480 frame. -/
def w7 : Detection := ⟨310, 230, 330, 250, 9 / 10, .woman, 25, none, false, []⟩

/-- Unarmed man, center `(400,240)`: 80 px from `w7`. -/
def m71 : Detection := ⟨390, 230, 410, 250, 9 / 10, .man, 30, none, false, []⟩

/-- Unarmed man, center `(240,240)`: 80 px from `w7`. -/
def m72 : Detection := ⟨230, 230, 250, 250, 9 / 10, .man, 30, none, false, []⟩

/-- Unarmed man, center `(320,160)`: 80 px from `w7`. -/
def m73 : Detection := ⟨310, 150, 330, 170, 9 / 10, .man, 30, none, false, []⟩

/-- Armed variant of `m71` (associated knife, confidence 0.9). -/
def m71armed : Detection :=
  ⟨390, 230, 410, 250, 9 / 10, .man, 30, none, true, [⟨"knife", 9 / 10, 0⟩]⟩

/-- Frame: `w7` with two unarmed men 80 px away. -/
def frameTwoMen : List Detection := [w7, m71, m72]

/-- Frame: `w7` with three unarmed men 80 px away. -/
def frameThreeMen : List Detection := [w7, m71, m72, m73]

/-- Frame: `w7` with three men 80 px away, one armed. -/
def frameThreeMenArmed : List Detection := [w7, m71armed, m72, m73]

/-- Lone woman, box `[300,220,340,260]` (center `(320,240)`). -/
def loneW : Detection := ⟨300, 220, 340, 260, 9 / 10, .woman, 25, none, false, []⟩

/-- Seventeen keypoints: nose `(300,300)`, wrists at `y = 240` (60 px above the
nose) but horizontally far from it (left wrist at `x = 600`); all three
joints have confidence 0.9, every other entry `(0,0,0)`. -/
def kpsFarWrists : List (ℤ × ℤ × ℚ) :=
  [(300, 300, 9 / 10), (0, 0, 0), (0, 0, 0), (0, 0, 0), (0, 0, 0), (0, 0, 0),
   (0, 0, 0), (0, 0, 0), (0, 0, 0), (600, 240, 9 / 10), (40, 240, 9 / 10),
   (0, 0, 0), (0, 0, 0), (0, 0, 0), (0, 0, 0), (0, 0, 0), (0, 0, 0)]

/-- Woman carrying `kpsFarWrists`. -/
def distressFarWoman : Detection :=
  ⟨100, 100, 200, 300, 9 / 10, .woman, 25, some kpsFarWrists, false, []⟩

/-- Seventeen keypoints: nose `(300,300)`, wrists at `y = 240`, left wrist at
`x = 280` (within 100 px of the nose); confidences as in `kpsFarWrists`. -/
def kpsNearWrists : List (ℤ × ℤ × ℚ) :=
  [(300, 300, 9 / 10), (0, 0, 0), (0, 0, 0), (0, 0, 0), (0, 0, 0), (0, 0, 0),
   (0, 0, 0), (0, 0, 0), (0, 0, 0), (280, 240, 9 / 10), (320, 240, 9 / 10),
   (0, 0, 0), (0, 0, 0), (0, 0, 0), (0, 0, 0), (0, 0, 0), (0, 0, 0)]

/-- Woman carrying `kpsNearWrists`. -/
def distressNearWoman : Detection :=
  ⟨100, 100, 200, 300, 9 / 10, .woman, 25, some kpsNearWrists, false, []⟩

/-- Armed man with no women in frame. -/
def armedMan : Detection :=
  ⟨0, 0, 10, 10, 9 / 10, .man, 30, none, true, [⟨"knife", 9 / 10, 0⟩]⟩

/-! ## Claims -/

/-- C1: for every list of person detections (any genders, ages,
confidences, hazard associations) and any hour of day,
`_calculate_risk_score` returns a score `s` with `0 ≤ s ≤ 100`. -/
theorem calculateRiskScore_bounds (detections : List Detection) (hour : ℕ) :
    0 ≤ calculateRiskScore detections hour ∧
      calculateRiskScore detections hour ≤ 100 := by
  unfold calculateRiskScore
  by_cases hd : detections = []
  · rw [if_pos hd]
    norm_num
  · rw [if_neg hd]
    exact ⟨le_max_left 0 _, max_le (by norm_num) (min_le_left _ _)⟩

/-- C2: the empty detection list scores exactly 0 (the scorer returns on
its first guard, before any normalization), and the safety-scenario
classification of a frame with no detections has all category lists empty
and overall threat level SAFE. -/
theorem emptyFrame_zero_and_safe (hour : ℕ) (w h : ℤ) :
    calculateRiskScore [] hour = 0 ∧
    analyzeWomenSafetyScenarios [] w h =
      { loneWomen := [], surroundedWomen := [], womenInDanger := [],
        distressSignals := [], overallThreatLevel := .SAFE } :=
  ⟨rfl, rfl⟩

/-- C3: `_associate_harmful_objects` links an object to a person iff the
object's center lies inside the person's box or the center-to-center
distance is at most 100 px (squared encoding `distSq ≤ 100²`); on
association it sets the hazard flag and appends the
`{type, confidence, distance}` record, otherwise the person is unchanged.
The boundary holds both ways: a hazard at exactly 100 px associates, at
101 px it does not. -/
theorem associate_iff_within100 (p : Detection) (o : HarmfulObject) :
    (assocCond p o = true ↔
      ((p.x1 ≤ o.centerX ∧ o.centerX ≤ p.x2 ∧ p.y1 ≤ o.centerY ∧ o.centerY ≤ p.y2) ∨
        distSq p.center (o.centerX, o.centerY) ≤ 100 ^ 2)) ∧
    (assocCond p o = true →
      associateOne p o =
        { p with
          hasHarmfulObject := true
          harmfulObjectsNearby := p.harmfulObjectsNearby ++
            [⟨o.className, o.confidence, distSq p.center (o.centerX, o.centerY)⟩] }) ∧
    (assocCond p o = false → associateOne p o = p) ∧
    distSq boundaryPerson.center (boundaryObj100.centerX, boundaryObj100.centerY) =
      100 ^ 2 ∧
    assocCond boundaryPerson boundaryObj100 = true ∧
    distSq boundaryPerson.center (boundaryObj101.centerX, boundaryObj101.centerY) =
      101 ^ 2 ∧
    assocCond boundaryPerson boundaryObj101 = false := by
  refine ⟨?_, ?_, ?_, by decide, by decide, by decide, by decide⟩
  · simp [assocCond, withinBbox]
  · intro hc
    simp [associateOne, hc]
  · intro hc
    simp [associateOne, hc]

/-- Witness for C3 at the 100 px boundary input. -/
theorem associate_iff_within100_witness :
    assocCond boundaryPerson boundaryObj100 = true ∧
    associateOne boundaryPerson boundaryObj100 =
      { boundaryPerson with
        hasHarmfulObject := true
        harmfulObjectsNearby := boundaryPerson.harmfulObjectsNearby ++
          [⟨boundaryObj100.className, boundaryObj100.confidence,
            distSq boundaryPerson.center
              (boundaryObj100.centerX, boundaryObj100.centerY)⟩] } :=
  ⟨by decide,
    (associate_iff_within100 boundaryPerson boundaryObj100).2.1 (by decide)⟩

/-- C4: for a fixed `(cameraId, alertType)` key, a `trigger_alert` call
less than the cooldown window after the previous trigger returns `False`
and changes nothing (state returned untouched, so no alert row and an
unchanged cooldown entry); with no prior trigger, or with elapsed time at
least the window, it returns `True`, persists exactly one alert row, and
records the new trigger time for the key.  The configured default window
is 300 s. -/
theorem trigger_alert_cooldown (st : AlertState) (now t : ℤ)
    (cam typ details : String) (score : ℚ) (cd : ℤ) :
    (st.lastAlertTimes (cam, typ) = some t → now - t < cd →
      trigger_alert st now cam typ details score cd = (false, st)) ∧
    ((st.lastAlertTimes (cam, typ) = none ∨
        (st.lastAlertTimes (cam, typ) = some t ∧ cd ≤ now - t)) →
      (trigger_alert st now cam typ details score cd).1 = true ∧
      (trigger_alert st now cam typ details score cd).2.alerts =
        st.alerts ++ [⟨cam, typ, now, score, details⟩] ∧
      (trigger_alert st now cam typ details score cd).2.lastAlertTimes (cam, typ) =
        some now) ∧
    alertCooldownDefault = 300 := by
  refine ⟨?_, ?_, rfl⟩
  · intro h1 h2
    simp [trigger_alert, h1, h2]
  · rintro (hnone | ⟨hsome, hge⟩)
    · simp [trigger_alert, hnone]
    · simp [trigger_alert, hsome, not_lt.mpr hge]

/-- Witness for C4: an empty-state trigger at `now = 1000` succeeds, and a
repeat 50 s later (within the 300 s window) is rejected with the state
unchanged. -/
theorem trigger_alert_cooldown_witness :
    (trigger_alert ⟨fun _ => none, []⟩ 1000 "CAM01" "surrounded" "d" 5 300).1 = true ∧
    (trigger_alert ⟨fun _ => none, []⟩ 1000 "CAM01" "surrounded" "d" 5 300).2.alerts =
      [] ++ [⟨"CAM01", "surrounded", 1000, 5, "d"⟩] ∧
    (trigger_alert ⟨fun _ => none, []⟩ 1000 "CAM01" "surrounded" "d" 5
        300).2.lastAlertTimes ("CAM01", "surrounded") = some 1000 ∧
    trigger_alert
        ((trigger_alert ⟨fun _ => none, []⟩ 1000 "CAM01" "surrounded" "d" 5 300).2)
        1050 "CAM01" "surrounded" "d" 5 300 =
      (false, (trigger_alert ⟨fun _ => none, []⟩ 1000 "CAM01" "surrounded" "d" 5 300).2) := by
  have h1 := trigger_alert_cooldown ⟨fun _ => none, []⟩ 1000 0 "CAM01" "surrounded" "d" 5 300
  have h2 := trigger_alert_cooldown
    ((trigger_alert ⟨fun _ => none, []⟩ 1000 "CAM01" "surrounded" "d" 5 300).2)
    1050 1000 "CAM01" "surrounded" "d" 5 300
  obtain ⟨hfst, halerts, hlook⟩ := h1.2.1 (Or.inl rfl)
  exact ⟨hfst, halerts, hlook, h2.1 hlook (by norm_num)⟩

/-- C5 counterexample: one woman (age 25, no weapons) at noon.  The code
returns the clamped additive total 20, while the spec's
`clamp(logistic(total))` at the same combined total 20 lies strictly
between 50 and 100, so the two disagree. -/
theorem riskScore_not_logistic_cex :
    calculateRiskScore [soloWoman] 12 = 20 ∧
    combinedTotal [soloWoman] 12 = 20 ∧
    ((calculateRiskScore [soloWoman] 12 : ℚ) : ℝ) ≠
      max 0 (min 100 (logisticSpec ((combinedTotal [soloWoman] 12 : ℚ) : ℝ))) := by
  have h1 : calculateRiskScore [soloWoman] 12 = 20 := by
    norm_num [calculateRiskScore, soloWoman, personRisk, groupBonus, isNightHour,
      List.filter, min_def, max_def]
  have h2 : combinedTotal [soloWoman] 12 = 20 := by
    norm_num [combinedTotal, soloWoman, personRisk, groupBonus, isNightHour,
      List.filter]
  refine ⟨h1, h2, ?_⟩
  rw [h1, h2]
  have hcast : (((20 : ℚ) : ℝ)) = (20 : ℝ) := by norm_num
  rw [hcast]
  have he : Real.exp (-(1 / 10) * ((20 : ℝ) - 10)) < 1 := by
    rw [Real.exp_lt_one_iff]
    norm_num
  have hp : (0 : ℝ) < Real.exp (-(1 / 10) * ((20 : ℝ) - 10)) := Real.exp_pos _
  have hden : (0 : ℝ) < 1 + Real.exp (-(1 / 10) * ((20 : ℝ) - 10)) := by linarith
  have hL : (50 : ℝ) < logisticSpec 20 := by
    unfold logisticSpec
    rw [lt_div_iff₀ hden]
    linarith
  have hU : logisticSpec 20 < 100 := by
    unfold logisticSpec
    rw [div_lt_iff₀ hden]
    linarith
  rw [min_eq_right hU.le, max_eq_right (by linarith)]
  exact ne_of_lt (by linarith)

/-- C5 as amended: for every non-empty detection set, the final risk score
equals the combined weighted total (after the ×1.2 night multiplier and the
+2-per-extra-person crowding bonus) clamped to `[0,100]`; no logistic
normalization is applied. -/
theorem riskScore_clamped_total (detections : List Detection) (hour : ℕ)
    (hne : detections ≠ []) :
    calculateRiskScore detections hour =
      max 0 (min 100 (combinedTotal detections hour)) := by
  unfold calculateRiskScore combinedTotal
  rw [if_neg hne]

/-- Witness for the amended C5 at the one-woman frame. -/
theorem riskScore_clamped_total_witness :
    calculateRiskScore [soloWoman] 12 =
      max 0 (min 100 (combinedTotal [soloWoman] 12)) :=
  riskScore_clamped_total [soloWoman] 12 (by decide)

/-- Counting men among `nearby_people` equals counting, among all people,
those distinct from the woman, strictly within 200 px of her center, and
male. -/
theorem nearbyMen_length (woman : Detection) (allPeople : List Detection) :
    ((nearbyPeople woman allPeople).filter (·.isMale)).length =
      (allPeople.filter (fun p =>
        (p ≠ woman ∧ distSq woman.center p.center < 200 ^ 2) ∧
          p.gender = Gender.man)).length := by
  unfold nearbyPeople
  rw [List.filter_map, List.length_map, List.filter_filter]
  congr 1
  apply List.filter_congr
  intro a _
  by_cases hA : a ≠ woman ∧ distSq woman.center a.center < 200 ^ 2 <;>
    by_cases hC : a.gender = Gender.man <;>
      simp [Function.comp, hA, hC]

/-- C6 counterexample: a woman (`w7`, center `(320,240)`) with exactly two
men 80 px away — inside the 150 px surrounding radius — is not classified
as surrounded by the per-woman analysis (which requires ≥ 3 men within
200 px), refuting the claimed `surroundingRadius=150px, threshold=2` rule. -/
theorem surrounded150_threshold2_cex :
    distSq w7.center m71.center ≤ 150 ^ 2 ∧
    distSq w7.center m72.center ≤ 150 ^ 2 ∧
    ((nearbyPeople w7 frameTwoMen).filter (·.isMale)).length = 2 ∧
    (analyzeIndividualWomanSafety w7 frameTwoMen 640 480).isSurrounded = false := by
  refine ⟨by decide, by decide, ?_, ?_⟩
  · norm_num [nearbyPeople, w7, m71, m72, frameTwoMen, Detection.center, distSq,
      List.filter]
  · norm_num [analyzeIndividualWomanSafety, nearbyPeople, w7, m71, m72, frameTwoMen,
      Detection.center, distSq, List.filter]

/-- C6 as amended: in the canonical per-woman analysis, `isSurrounded` is
true exactly when at least 3 men lie strictly within 200 px of the woman's
center; the 150 px / ≥ 2 rule exists only as the surveillance-variant
`surrounded` flag (`_count_surrounding_males >= 2` with `distance <= 150`). -/
theorem isSurrounded_rule (woman : Detection) (allPeople : List Detection) (w h : ℤ) :
    ((analyzeIndividualWomanSafety woman allPeople w h).isSurrounded = true ↔
      3 ≤ (allPeople.filter (fun p =>
        (p ≠ woman ∧ distSq woman.center p.center < 200 ^ 2) ∧
          p.gender = Gender.man)).length) ∧
    (∀ (f : Surveillance.SPerson) (males : List Surveillance.SPerson),
      Surveillance.surroundedFlag f males = true ↔
        2 ≤ (males.filter fun m => distSq f.center m.center ≤ 150 ^ 2).length) := by
  constructor
  · rw [← nearbyMen_length]
    simp [analyzeIndividualWomanSafety]
  · intro f males
    simp [Surveillance.surroundedFlag, Surveillance.countSurroundingMales]

/-- Definitional shape of the `surrounded_women` bucket. -/
theorem surroundedWomen_eq (detections : List Detection) (w h : ℤ) :
    (analyzeWomenSafetyScenarios detections w h).surroundedWomen =
      (((detections.filter (fun d => d.gender = Gender.woman)).map
        (fun wm => (wm, analyzeIndividualWomanSafety wm detections w h))).filter
          (fun pr => pr.2.isSurrounded ∧ pr.2.threatLevel > 6 / 10)).map (·.2) := rfl

/-- Definitional shape of the `women_in_danger` bucket. -/
theorem womenInDanger_eq (detections : List Detection) (w h : ℤ) :
    (analyzeWomenSafetyScenarios detections w h).womenInDanger =
      (((detections.filter (fun d => d.gender = Gender.woman)).map
        (fun wm => (wm, analyzeIndividualWomanSafety wm detections w h))).filter
          (fun pr => pr.2.immediateDanger ∨ pr.1.hasHarmfulObject)).map (·.2) := rfl

/-- Witness for the amended C6 at the two-men frame. -/
theorem isSurrounded_rule_witness :
    (((analyzeIndividualWomanSafety w7 frameTwoMen 640 480).isSurrounded = true ↔
      3 ≤ (frameTwoMen.filter (fun p =>
        (p ≠ w7 ∧ distSq w7.center p.center < 200 ^ 2) ∧
          p.gender = Gender.man)).length) ∧
    (∀ (f : Surveillance.SPerson) (males : List Surveillance.SPerson),
      Surveillance.surroundedFlag f males = true ↔
        2 ≤ (males.filter fun m => distSq f.center m.center ≤ 150 ^ 2).length)) :=
  isSurrounded_rule w7 frameTwoMen 640 480

/-- C7 counterexample: a woman with exactly 3 unarmed men in range is
surrounded with threat level exactly `3/5 = 0.6`, which fails the strict
`> 0.6` gate, so she is NOT placed in `surrounded_women` — refuting the
claimed scenario "3 unarmed men ⟹ she is placed in surroundedWomen". -/
theorem threeUnarmedMen_not_bucketed_cex :
    (analyzeIndividualWomanSafety w7 frameThreeMen 640 480).isSurrounded = true ∧
    (analyzeIndividualWomanSafety w7 frameThreeMen 640 480).threatLevel = 3 / 5 ∧
    (analyzeWomenSafetyScenarios frameThreeMen 640 480).surroundedWomen = [] := by
  refine ⟨?_, ?_, ?_⟩ <;>
    norm_num [analyzeWomenSafetyScenarios, analyzeIndividualWomanSafety, nearbyPeople,
      frameThreeMen, w7, m71, m72, m73, Detection.center, distSq, List.filter]

set_option maxHeartbeats 2000000 in
/-- C7 as amended: the threat level is `min(1, nearbyMen/5)` only once ≥ 3
men are nearby (0.0 below that), and is forced to 1.0 exactly when some
nearby man carries a hazard — the woman's own hazard raises
`immediate_danger`, not the threat level.  With 3 unarmed men the level is
exactly 0.6 and the strict `> 0.6` gate excludes her from
`surrounded_women` (shown in the counterexample); if one of the three men
is armed, the level is 1.0 and she lands in both `surrounded_women` and
`women_in_danger`. -/
theorem threatLevel_rule (woman : Detection) (allPeople : List Detection) (w h : ℤ) :
    ((analyzeIndividualWomanSafety woman allPeople w h).threatLevel =
      if ((nearbyPeople woman allPeople).filter (·.isMale)).any
          (·.person.hasHarmfulObject) then 1
      else if 3 ≤ ((nearbyPeople woman allPeople).filter (·.isMale)).length then
        min 1 ((((nearbyPeople woman allPeople).filter (·.isMale)).length : ℚ) / 5)
      else 0) ∧
    ((analyzeIndividualWomanSafety woman allPeople w h).immediateDanger =
      (woman.hasHarmfulObject ||
        ((nearbyPeople woman allPeople).filter (·.isMale)).any
          (·.person.hasHarmfulObject))) ∧
    (analyzeIndividualWomanSafety w7 frameThreeMenArmed 640 480).threatLevel = 1 ∧
    (analyzeWomenSafetyScenarios frameThreeMenArmed 640 480).surroundedWomen =
      [analyzeIndividualWomanSafety w7 frameThreeMenArmed 640 480] ∧
    (analyzeWomenSafetyScenarios frameThreeMenArmed 640 480).womenInDanger =
      [analyzeIndividualWomanSafety w7 frameThreeMenArmed 640 480] := by
  have hwomen : frameThreeMenArmed.filter (fun d => d.gender = Gender.woman) = [w7] := by
    simp [frameThreeMenArmed, w7, m71armed, m72, m73, List.filter_cons]
  have hT : (analyzeIndividualWomanSafety w7 frameThreeMenArmed 640 480).threatLevel
      = 1 := by
    norm_num [analyzeIndividualWomanSafety, nearbyPeople, frameThreeMenArmed, w7,
      m71armed, m72, m73, Detection.center, distSq, List.filter]
  have hS : (analyzeIndividualWomanSafety w7 frameThreeMenArmed 640 480).isSurrounded
      = true := by
    norm_num [analyzeIndividualWomanSafety, nearbyPeople, frameThreeMenArmed, w7,
      m71armed, m72, m73, Detection.center, distSq, List.filter]
  have hD : (analyzeIndividualWomanSafety w7 frameThreeMenArmed 640
      480).immediateDanger = true := by
    norm_num [analyzeIndividualWomanSafety, nearbyPeople, frameThreeMenArmed, w7,
      m71armed, m72, m73, Detection.center, distSq, List.filter]
  refine ⟨?_, rfl, hT, ?_, ?_⟩
  · cases harm : ((nearbyPeople woman allPeople).filter (·.isMale)).any
        (·.person.hasHarmfulObject) <;>
      by_cases hlen3 : 3 ≤ ((nearbyPeople woman allPeople).filter (·.isMale)).length <;>
        simp [analyzeIndividualWomanSafety, harm, hlen3]
  · rw [surroundedWomen_eq, hwomen]
    simp only [List.map_cons, List.map_nil, List.filter_cons, List.filter_nil, hS, hT]
    norm_num
  · rw [womenInDanger_eq, hwomen]
    simp only [List.map_cons, List.map_nil, List.filter_cons, List.filter_nil, hD]
    norm_num

/-- Witness for the amended C7, instantiated at the two-men frame. -/
theorem threatLevel_rule_witness :
    ((analyzeIndividualWomanSafety w7 frameTwoMen 640 480).threatLevel =
      if ((nearbyPeople w7 frameTwoMen).filter (·.isMale)).any
          (·.person.hasHarmfulObject) then 1
      else if 3 ≤ ((nearbyPeople w7 frameTwoMen).filter (·.isMale)).length then
        min 1 ((((nearbyPeople w7 frameTwoMen).filter (·.isMale)).length : ℚ) / 5)
      else 0) ∧
    ((analyzeIndividualWomanSafety w7 frameTwoMen 640 480).immediateDanger =
      (w7.hasHarmfulObject ||
        ((nearbyPeople w7 frameTwoMen).filter (·.isMale)).any
          (·.person.hasHarmfulObject))) ∧
    (analyzeIndividualWomanSafety w7 frameThreeMenArmed 640 480).threatLevel = 1 ∧
    (analyzeWomenSafetyScenarios frameThreeMenArmed 640 480).surroundedWomen =
      [analyzeIndividualWomanSafety w7 frameThreeMenArmed 640 480] ∧
    (analyzeWomenSafetyScenarios frameThreeMenArmed 640 480).womenInDanger =
      [analyzeIndividualWomanSafety w7 frameThreeMenArmed 640 480] :=
  threatLevel_rule w7 frameTwoMen 640 480

/-- C8: a woman with no other detected person within the 200 px nearby
radius has `is_alone = true` and
`isolation_risk = max(0.5, 1 − edgeProximity / min(w,h) × 2)` where
`edgeProximity` is her center's distance to the nearest frame edge; the
value is always at least 0.5. -/
theorem loneWoman_isolationRisk (woman : Detection) (allPeople : List Detection)
    (w h : ℤ)
    (hlone : ∀ p ∈ allPeople, p ≠ woman → ¬ distSq woman.center p.center < 200 ^ 2) :
    (analyzeIndividualWomanSafety woman allPeople w h).isAlone = true ∧
    (analyzeIndividualWomanSafety woman allPeople w h).isolationRisk =
      max (1 / 2) (1 -
        ((min (min woman.center.1 woman.center.2)
            (min (w - woman.center.1) (h - woman.center.2)) : ℤ) : ℚ) /
          ((min w h : ℤ) : ℚ) * 2) ∧
    (1 : ℚ) / 2 ≤ (analyzeIndividualWomanSafety woman allPeople w h).isolationRisk := by
  have hnil : nearbyPeople woman allPeople = [] := by
    unfold nearbyPeople
    rw [List.map_eq_nil_iff]
    rw [List.filter_eq_nil_iff]
    intro a ha
    simp only [decide_eq_true_eq, not_and]
    intro hne
    exact hlone a ha hne
  have halone : (analyzeIndividualWomanSafety woman allPeople w h).isAlone = true := by
    unfold analyzeIndividualWomanSafety
    rw [hnil]
    rfl
  have hiso : (analyzeIndividualWomanSafety woman allPeople w h).isolationRisk =
      max (1 / 2) (1 -
        ((min (min woman.center.1 woman.center.2)
            (min (w - woman.center.1) (h - woman.center.2)) : ℤ) : ℚ) /
          ((min w h : ℤ) : ℚ) * 2) := by
    unfold analyzeIndividualWomanSafety
    rw [hnil]
    rfl
  refine ⟨halone, hiso, ?_⟩
  rw [hiso]
  exact le_max_left _ _

/-- Witness for C8: a lone woman who is the only detection in a 640×480
frame. -/
theorem loneWoman_isolationRisk_witness :
    (analyzeIndividualWomanSafety loneW [loneW] 640 480).isAlone = true ∧
    (analyzeIndividualWomanSafety loneW [loneW] 640 480).isolationRisk =
      max (1 / 2) (1 -
        ((min (min loneW.center.1 loneW.center.2)
            (min (640 - loneW.center.1) (480 - loneW.center.2)) : ℤ) : ℚ) /
          ((min (640 : ℤ) 480 : ℤ) : ℚ) * 2) ∧
    (1 : ℚ) / 2 ≤ (analyzeIndividualWomanSafety loneW [loneW] 640 480).isolationRisk :=
  loneWoman_isolationRisk loneW [loneW] 640 480 (by
    intro p hp hne
    rw [List.mem_singleton] at hp
    exact absurd hp hne)

/-- C9 counterexample: both wrists 60 px above the nose with confidence 0.9
on nose and wrists, but the left wrist horizontally far from the nose:
only the hands-up indicator fires, the sum is exactly 0.4, and the strict
`> 0.4` threshold makes `has_distress` FALSE — refuting the claim that
such keypoints always yield distress. -/
theorem distress_hands_up_only_cex :
    (detectDistressSignals distressFarWoman).confidence = 4 / 10 ∧
    (detectDistressSignals distressFarWoman).indicators = ["arms_raised"] ∧
    (detectDistressSignals distressFarWoman).hasDistress = false := by
  refine ⟨?_, ?_, ?_⟩ <;>
    norm_num [detectDistressSignals, distressFarWoman, kpsFarWrists, List.get?]

/-- C9 as amended: for 17 keypoints with both wrists 60 px above the nose
and confidence 0.9 on nose and both wrists, the hands-up indicator
contributes exactly +0.4, and because the final decision is strictly
`sum > 0.4`, the detector reports distress iff the defensive-posture
indicator (+0.3; left wrist within 100 px of the nose) also fires. -/
theorem distress_hands_up_rule (woman : Detection) (kps : List (ℤ × ℤ × ℚ))
    (nx ny lx rx : ℤ)
    (hk : woman.keypoints = some kps) (hlen : kps.length = 17)
    (h0 : kps.get? 0 = some (nx, ny, 9 / 10))
    (h9 : kps.get? 9 = some (lx, ny - 60, 9 / 10))
    (h10 : kps.get? 10 = some (rx, ny - 60, 9 / 10)) :
    (detectDistressSignals woman).confidence =
      4 / 10 + (if (nx - lx) ^ 2 + 60 ^ 2 < 100 ^ 2 then (3 : ℚ) / 10 else 0) ∧
    ((detectDistressSignals woman).hasDistress = true ↔
      (nx - lx) ^ 2 + 60 ^ 2 < 100 ^ 2) := by
  have e1 : ny - 60 < ny - 50 := by omega
  have e2 : (9 : ℚ) / 10 > 1 / 2 := by norm_num
  have e3 : ny - (ny - 60) = 60 := by ring
  unfold detectDistressSignals
  rw [hk]
  simp only [h0, h9, h10, hlen, e1, e2, e3]
  by_cases hd : (nx - lx) ^ 2 + 3600 < 10000 <;>
    simp [hd]

/-- Witness for the amended C9: concrete keypoints with the left wrist
20 px from the nose horizontally (within 100 px) yield distress. -/
theorem distress_hands_up_rule_witness :
    (detectDistressSignals distressNearWoman).confidence =
      4 / 10 + (if ((300 : ℤ) - 280) ^ 2 + 60 ^ 2 < 100 ^ 2 then (3 : ℚ) / 10 else 0) ∧
    ((detectDistressSignals distressNearWoman).hasDistress = true ↔
      ((300 : ℤ) - 280) ^ 2 + 60 ^ 2 < 100 ^ 2) :=
  distress_hands_up_rule distressNearWoman kpsNearWrists 300 300 280 320
    rfl (by rfl) (by rfl) (by rfl) (by rfl)

/-- C10: when no detection is classified as a woman, the safety-scenario
classification has all four category lists empty and overall threat level
SAFE — armed men or unknown-gender persons alone never raise it. -/
theorem noWomen_allSafe (dets : List Detection) (w h : ℤ)
    (hg : ∀ d ∈ dets, d.gender ≠ Gender.woman) :
    analyzeWomenSafetyScenarios dets w h =
      { loneWomen := [], surroundedWomen := [], womenInDanger := [],
        distressSignals := [], overallThreatLevel := .SAFE } := by
  have hw : dets.filter (fun d => d.gender = Gender.woman) = [] :=
    List.filter_eq_nil_iff.mpr (by
      intro a ha
      simpa using hg a ha)
  unfold analyzeWomenSafetyScenarios
  rw [hw]
  rfl

/-- Witness for C10: a single armed man. -/
theorem noWomen_allSafe_witness :
    analyzeWomenSafetyScenarios [armedMan] 640 480 =
      { loneWomen := [], surroundedWomen := [], womenInDanger := [],
        distressSignals := [], overallThreatLevel := .SAFE } :=
  noWomen_allSafe [armedMan] 640 480 (by
    intro d hd
    rw [List.mem_singleton] at hd
    subst hd
    simp [armedMan])

end WatchHer


